import Mathlib

/-
Verification development for the pve-k3s-management repository.

The development embeds, as executable Lean definitions, the two core pieces
of the code base:

  * the Status Poller `monitor_pve_task` from src/mcp/main_mcp.py, and
  * the Event Bus / Request Stream Translator
    (`broadcast_event`, `sse_generator`, `monitor_generator`)
    from src/monitoring/agent/agent.py,

and proves the behavioural properties claimed for them.

Timing is modelled discretely: each loop iteration of the poller sleeps for
the reference cadence of 2 time units, and a status fetch itself takes zero
time.  Wall-clock timestamps carried inside events are abstracted away.
-/

namespace PveK3s

/-! ### A small JSON model

The python code serializes event payloads with json.dumps.  We model the
JSON values actually produced and their textual rendering.  A string is
valid JSON when it is the rendering of some JSON value. -/

inductive Json where
  | str (s : String)
  | num (n : Int)
  | boolean (b : Bool)
  | null
  | obj (fields : List (String × Json))
  | arr (elems : List Json)
deriving Repr

/-- Decimal digit characters used when rendering integers. -/
def digitChar : Nat → Char
  | 0 => '0' | 1 => '1' | 2 => '2' | 3 => '3' | 4 => '4'
  | 5 => '5' | 6 => '6' | 7 => '7' | 8 => '8' | 9 => '9'
  | _ => '*'

/-- Digits of a natural number, most significant first; empty for 0. -/
def natDigitsAux (n : Nat) : List Char :=
  if n = 0 then [] else natDigitsAux (n / 10) ++ [digitChar (n % 10)]
termination_by n
decreasing_by omega

/-- Decimal rendering of a natural number, as python str does. -/
def renderNat (n : Nat) : String :=
  if n = 0 then "0" else String.mk (natDigitsAux n)

/-- Decimal rendering of an integer, as python str does. -/
def renderInt (i : Int) : String :=
  if i < 0 then "-" ++ renderNat i.natAbs else renderNat i.natAbs

/-- JSON string escaping as performed by json.dumps with ensure_ascii
disabled (remaining rare control characters are kept verbatim in the
model). -/
def escapeChar (c : Char) : List Char :=
  if c = '"' then ['\\', '"']
  else if c = '\\' then ['\\', '\\']
  else if c = '\n' then ['\\', 'n']
  else if c = '\t' then ['\\', 't']
  else if c = '\r' then ['\\', 'r']
  else [c]

def escapeString (s : String) : String :=
  String.mk (s.data.flatMap escapeChar)

/-- Rendering of a JSON value, following the default json.dumps layout:
", " between members and ": " after each key. -/
def renderJson : Json → String
  | .str s => "\"" ++ escapeString s ++ "\""
  | .num n => renderInt n
  | .boolean b => if b then "true" else "false"
  | .null => "null"
  | .obj fields =>
      "\x7b" ++ String.intercalate ", "
        (fields.attach.map (fun p =>
          "\"" ++ escapeString p.1.1 ++ "\": " ++ renderJson p.1.2)) ++ "\x7d"
  | .arr elems =>
      "[" ++ String.intercalate ", "
        (elems.attach.map (fun p => renderJson p.1)) ++ "]"
termination_by j => sizeOf j
decreasing_by
  · obtain ⟨⟨k, v⟩, hp⟩ := p
    have h := List.sizeOf_lt_of_mem hp
    simp at h ⊢
    omega
  · obtain ⟨x, hp⟩ := p
    have h := List.sizeOf_lt_of_mem hp
    simp at h ⊢
    omega

/-- A string is valid JSON when some JSON value renders to it. -/
def validJson (s : String) : Prop := ∃ j : Json, renderJson j = s

/-- The type discriminator of a JSON payload: the value of its "type"
member, when the payload is an object carrying a string there. -/
def jsonType (j : Json) : Option String :=
  match j with
  | .obj fields =>
      match fields.lookup "type" with
      | some (.str t) => some t
      | _ => none
  | _ => none

/-! ### Status Poller: monitor_pve_task (src/mcp/main_mcp.py)

One status fetch either fails at the transport/protocol level (the python
api_request returns None or a dict with an error key; the carried string is
the printed response) or parses into the status field and the exitstatus
field (python applies the default "N/A" when exitstatus is absent). -/

inductive FetchResult where
  | err (detail : String)
  | ok (status : String) (exitstatus : String)
deriving Repr, DecidableEq

/-- The outcome of a call: either a returned string, or the python
NameError raised by the final return statement when the loop body never
ran and the local variable status is unbound. -/
inductive PollResult where
  | ret (s : String)
  | nameError
deriving Repr, DecidableEq

def fetchFailMsg (upid detail : String) : String :=
  "ERROR: Failed to fetch task status for " ++ upid ++ ". Details: " ++ detail

def successMsg (upid exitstatus : String) : String :=
  "SUCCESS: Task " ++ upid ++ " completed successfully. Exit status: " ++ exitstatus

def failureMsg (upid exitstatus : String) : String :=
  "FAILURE: Task " ++ upid ++ " finished with error. Exit status: " ++ exitstatus
    ++ ". Check PVE task log for details."

def timeoutMsg (upid : String) (timeout : Int) (status : String) : String :=
  "ERROR: Task " ++ upid ++ " timed out after " ++ renderInt timeout
    ++ " seconds. Current status: " ++ status

/-- The polling loop of monitor_pve_task.  `fetch k` is the result of the
(k+1)-th status query; `elapsed` is the discrete clock (each iteration
sleeps 2 time units before fetching, a fetch itself takes no time);
`n` counts fetches already performed; `lastStatus` is the value of the
python local variable status, absent while unbound.  Returns the outcome
together with the total number of fetches performed. -/
def monitorLoop (fetch : Nat → FetchResult) (timeout : Int) (upid : String)
    (elapsed n : Nat) (lastStatus : Option String) : PollResult × Nat :=
  if _h : (elapsed : Int) < timeout then
    -- time.sleep(2), then response = pve_client.api_request(...)
    match fetch n with
    | .err d => (.ret (fetchFailMsg upid d), n + 1)
    | .ok status exitstatus =>
      if status = "stopped" then
        if exitstatus = "OK" then (.ret (successMsg upid exitstatus), n + 1)
        else (.ret (failureMsg upid exitstatus), n + 1)
      else if ((elapsed : Int) + 2) > timeout then
        -- the duplicated in-loop deadline test
        (.ret (timeoutMsg upid timeout status), n + 1)
      else
        monitorLoop fetch timeout upid (elapsed + 2) (n + 1) (some status)
  else
    lastStatus.elim (.nameError, n)
      (fun status => (.ret (timeoutMsg upid timeout status), n))
termination_by (timeout - elapsed).toNat
decreasing_by omega

/-- monitor_pve_task: the authentication guard followed by the polling
loop, starting with clock 0 and the status local unbound. -/
def monitor_pve_task (authenticated : Bool) (fetch : Nat → FetchResult)
    (timeout : Int) (upid : String) : PollResult × Nat :=
  if authenticated then monitorLoop fetch timeout upid 0 0 none
  else (.ret "ERROR: PVE client is not initialized or authenticated.", 0)

/-- The collapsed variant considered by the spec: identical except that the
duplicated in-loop deadline test after the status fetch is removed, leaving
the loop-condition deadline check as the single test per iteration. -/
def monitorLoopCollapsed (fetch : Nat → FetchResult) (timeout : Int) (upid : String)
    (elapsed n : Nat) (lastStatus : Option String) : PollResult × Nat :=
  if _h : (elapsed : Int) < timeout then
    match fetch n with
    | .err d => (.ret (fetchFailMsg upid d), n + 1)
    | .ok status exitstatus =>
      if status = "stopped" then
        if exitstatus = "OK" then (.ret (successMsg upid exitstatus), n + 1)
        else (.ret (failureMsg upid exitstatus), n + 1)
      else
        monitorLoopCollapsed fetch timeout upid (elapsed + 2) (n + 1) (some status)
  else
    lastStatus.elim (.nameError, n)
      (fun status => (.ret (timeoutMsg upid timeout status), n))
termination_by (timeout - elapsed).toNat
decreasing_by omega

def monitor_pve_task_collapsed (authenticated : Bool) (fetch : Nat → FetchResult)
    (timeout : Int) (upid : String) : PollResult × Nat :=
  if authenticated then monitorLoopCollapsed fetch timeout upid 0 0 none
  else (.ret "ERROR: PVE client is not initialized or authenticated.", 0)

/-! ### Poller lemmas -/

lemma monitor_pve_task_true (fetch : Nat → FetchResult) (timeout : Int) (upid : String) :
    monitor_pve_task true fetch timeout upid = monitorLoop fetch timeout upid 0 0 none := by
  simp [monitor_pve_task]

lemma monitor_pve_task_collapsed_true (fetch : Nat → FetchResult) (timeout : Int) (upid : String) :
    monitor_pve_task_collapsed true fetch timeout upid
      = monitorLoopCollapsed fetch timeout upid 0 0 none := by
  simp [monitor_pve_task_collapsed]

/-- The fetch counter never decreases across the loop. -/
lemma monitorLoop_count_le (fetch : Nat → FetchResult) (timeout : Int) (upid : String) :
    ∀ (fuel elapsed n : Nat) (l : Option String), (timeout - (elapsed : Int)).toNat ≤ fuel →
      n ≤ (monitorLoop fetch timeout upid elapsed n l).2 := by
  intro fuel
  induction fuel with
  | zero =>
    intro elapsed n l hf
    rw [monitorLoop.eq_def]
    split
    · exfalso; omega
    · cases l <;> simp [Option.elim]
  | succ fuel ih =>
    intro elapsed n l hf
    rw [monitorLoop.eq_def]
    split
    · split
      · simp
      · split
        · split <;> simp
        · split
          · simp
          · exact le_trans (by omega) (ih (elapsed + 2) (n + 1) _ (by omega))
    · cases l <;> simp [Option.elim]

/-- Once the status local is bound, the loop can no longer end in the
unbound-variable error. -/
lemma monitorLoop_some_ne (fetch : Nat → FetchResult) (timeout : Int) (upid : String) :
    ∀ (fuel elapsed n : Nat) (s : String), (timeout - (elapsed : Int)).toNat ≤ fuel →
      (monitorLoop fetch timeout upid elapsed n (some s)).1 ≠ PollResult.nameError := by
  intro fuel
  induction fuel with
  | zero =>
    intro elapsed n s hf
    rw [monitorLoop.eq_def]
    split
    · exfalso; omega
    · simp [Option.elim]
  | succ fuel ih =>
    intro elapsed n s hf
    rw [monitorLoop.eq_def]
    split
    · split
      · simp
      · split
        · split <;> simp
        · split
          · simp
          · exact ih (elapsed + 2) (n + 1) _ (by omega)
    · simp [Option.elim]

/-- When every fetch yields a non-terminal status, the loop ends in the
timeout message carrying the most recently observed status. -/
lemma monitorLoop_nonterminal (statuses exits : Nat → String) (timeout : Int) (upid : String)
    (hs : ∀ k, statuses k ≠ "stopped") :
    ∀ (fuel elapsed n : Nat) (s : String), (timeout - (elapsed : Int)).toNat ≤ fuel →
      ∃ m, n ≤ m ∧
        monitorLoop (fun k => FetchResult.ok (statuses k) (exits k)) timeout upid elapsed n (some s)
          = (PollResult.ret (timeoutMsg upid timeout (if m = n then s else statuses (m - 1))), m) := by
  intro fuel
  induction fuel with
  | zero =>
    intro elapsed n s hf
    rw [monitorLoop.eq_def]
    split
    · exfalso; omega
    · refine ⟨n, le_rfl, ?_⟩
      simp [Option.elim]
  | succ fuel ih =>
    intro elapsed n s hf
    rw [monitorLoop.eq_def]
    split
    · simp [hs n]
      split
      · refine ⟨n + 1, by omega, ?_⟩
        simp
      · obtain ⟨m, hm, heq⟩ := ih (elapsed + 2) (n + 1) (statuses n) (by omega)
        refine ⟨m, by omega, ?_⟩
        rw [heq]
        have hm0 : ¬ (m = n) := by omega
        by_cases hm1 : m = n + 1
        · subst hm1; simp [hm0]
        · simp [hm0, hm1]
    · refine ⟨n, le_rfl, ?_⟩
      simp [Option.elim]

/-- The duplicated in-loop deadline test is behaviourally redundant: the
loop and its collapsed variant agree everywhere. -/
lemma monitorLoop_eq_collapsed (fetch : Nat → FetchResult) (timeout : Int) (upid : String) :
    ∀ (fuel elapsed n : Nat) (l : Option String), (timeout - (elapsed : Int)).toNat ≤ fuel →
      monitorLoop fetch timeout upid elapsed n l
        = monitorLoopCollapsed fetch timeout upid elapsed n l := by
  intro fuel
  induction fuel with
  | zero =>
    intro elapsed n l hf
    rw [monitorLoop.eq_def, monitorLoopCollapsed.eq_def]
    have h : ¬ ((elapsed : Int) < timeout) := by omega
    simp [h]
  | succ fuel ih =>
    intro elapsed n l hf
    by_cases h : (elapsed : Int) < timeout
    · rw [monitorLoop.eq_def, monitorLoopCollapsed.eq_def]
      simp only [h, dite_true]
      cases hfn : fetch n with
      | err d => simp
      | ok status exitstatus =>
        by_cases hstop : status = "stopped"
        · simp [hstop]
        · simp only [hstop, if_false]
          split
          · rw [monitorLoopCollapsed.eq_def]
            split
            · exfalso; omega
            · simp [Option.elim]
          · exact ih (elapsed + 2) (n + 1) (some status) (by omega)
    · rw [monitorLoop.eq_def, monitorLoopCollapsed.eq_def]
      simp [h]

/-- The fetch sequence of the reference scenario: running, running, then
stopped with exit OK. -/
def fetchRRS : Nat → FetchResult := fun n =>
  match n with
  | 0 => .ok "running" "N/A"
  | 1 => .ok "running" "N/A"
  | _ => .ok "stopped" "OK"

/-! ### Poller claim theorems -/

/-- Claim C2: whenever a fetched status equals the terminal marker
"stopped" inside a live iteration, exit status "OK" yields the literal
SUCCESS string and any other exit value yields the FAILURE string with the
raw exit detail, with no further fetches; and on the reference sequence
running, running, stopped with exit OK and cadence 2 with timeout 300, the
call succeeds after observing exactly 3 fetches. -/
theorem monitor_stopped_exit_dispatch :
    (∀ (fetch : Nat → FetchResult) (timeout : Int) (upid : String) (elapsed n : Nat)
       (l : Option String) (es : String),
       (elapsed : Int) < timeout → fetch n = FetchResult.ok "stopped" es →
       monitorLoop fetch timeout upid elapsed n l =
         ((if es = "OK" then PollResult.ret (successMsg upid es)
           else PollResult.ret (failureMsg upid es)), n + 1))
    ∧ monitor_pve_task true fetchRRS 300 "T1" = (PollResult.ret (successMsg "T1" "OK"), 3) := by
  constructor
  · intro fetch timeout upid elapsed n l es h hf
    rw [monitorLoop.eq_def, hf]
    simp [h]
    split <;> simp
  · simp [monitor_pve_task, monitorLoop, fetchRRS]

/-- Witness for claim C2 at a concrete input with a failing exit value. -/
theorem monitor_stopped_exit_dispatch_witness :
    monitorLoop (fun _ => FetchResult.ok "stopped" "BAD") 10 "T2" 0 0 none
      = (PollResult.ret (failureMsg "T2" "BAD"), 1) := by
  have h := monitor_stopped_exit_dispatch.1 (fun _ => FetchResult.ok "stopped" "BAD")
    10 "T2" 0 0 none "BAD" (by norm_num) rfl
  simpa using h

/-- Claim C3: over fetches that never reach the terminal state, a positive
timeout leads to the timeout outcome carrying the most recently observed
non-terminal status; with timeout 5 and cadence 2 the call times out with
the last observed status after exactly 3 fetches. -/
theorem monitor_timeout_returns_last_status :
    (∀ (statuses exits : Nat → String) (timeout : Int) (upid : String),
       0 < timeout → (∀ k, statuses k ≠ "stopped") →
       1 ≤ (monitor_pve_task true (fun k => FetchResult.ok (statuses k) (exits k)) timeout upid).2 ∧
       (monitor_pve_task true (fun k => FetchResult.ok (statuses k) (exits k)) timeout upid).1
         = PollResult.ret (timeoutMsg upid timeout (statuses
             ((monitor_pve_task true (fun k => FetchResult.ok (statuses k) (exits k)) timeout upid).2 - 1))))
    ∧ monitor_pve_task true (fun _ => FetchResult.ok "running" "N/A") 5 "T1"
        = (PollResult.ret (timeoutMsg "T1" 5 "running"), 3) := by
  constructor
  · intro statuses exits timeout upid ht hs
    have key : ∃ m, 1 ≤ m ∧
        monitorLoop (fun k => FetchResult.ok (statuses k) (exits k)) timeout upid 0 0 none
          = (PollResult.ret (timeoutMsg upid timeout (statuses (m - 1))), m) := by
      rw [monitorLoop.eq_def]
      split
      · simp [hs 0]
        split
        · exact ⟨1, le_rfl, by simp⟩
        · obtain ⟨m, hm, heq⟩ := monitorLoop_nonterminal statuses exits timeout upid hs
            ((timeout - ((2 : Nat) : Int)).toNat) 2 1 (statuses 0) le_rfl
          refine ⟨m, by omega, ?_⟩
          rw [heq]
          by_cases hm1 : m = 1
          · subst hm1; simp
          · simp [hm1]
      · exfalso; omega
    obtain ⟨m, hm, heq⟩ := key
    rw [monitor_pve_task_true, heq]
    exact ⟨by simpa using hm, by simp⟩
  · simp [monitor_pve_task, monitorLoop]

/-- Witness for claim C3 at a concrete non-terminal run. -/
theorem monitor_timeout_returns_last_status_witness :
    1 ≤ (monitor_pve_task true (fun k => FetchResult.ok ((fun _ => "running") k)
          ((fun _ => "N/A") k)) 9 "T5").2 ∧
    (monitor_pve_task true (fun k => FetchResult.ok ((fun _ => "running") k)
        ((fun _ => "N/A") k)) 9 "T5").1
      = PollResult.ret (timeoutMsg "T5" 9 ((fun _ => "running")
          ((monitor_pve_task true (fun k => FetchResult.ok ((fun _ => "running") k)
              ((fun _ => "N/A") k)) 9 "T5").2 - 1))) :=
  monitor_timeout_returns_last_status.1 (fun _ => "running") (fun _ => "N/A") 9 "T5"
    (by norm_num) (fun k => by simp)

/-- Claim C7: a transport or protocol failure of the status fetch itself
makes the call return the fetch-failure outcome at once, with no further
fetch in that call. -/
theorem monitor_fetch_error_short_circuits :
    ∀ (fetch : Nat → FetchResult) (timeout : Int) (upid : String) (elapsed n : Nat)
      (l : Option String) (d : String),
      (elapsed : Int) < timeout → fetch n = FetchResult.err d →
      monitorLoop fetch timeout upid elapsed n l
        = (PollResult.ret (fetchFailMsg upid d), n + 1) := by
  intro fetch timeout upid elapsed n l d h hf
  rw [monitorLoop.eq_def, hf]
  simp [h]

/-- Witness for claim C7 at a concrete failing fetch. -/
theorem monitor_fetch_error_short_circuits_witness :
    monitorLoop (fun _ => FetchResult.err "connection refused") 10 "T3" 0 0 none
      = (PollResult.ret (fetchFailMsg "T3" "connection refused"), 1) :=
  monitor_fetch_error_short_circuits (fun _ => FetchResult.err "connection refused")
    10 "T3" 0 0 none "connection refused" (by norm_num) rfl

/-- Claim C8: collapsing the duplicated in-loop deadline test into the
single loop-condition deadline check is observationally equivalent: both
versions return the same outcome and fetch count on every input. -/
theorem monitor_collapsed_equivalent :
    ∀ (authenticated : Bool) (fetch : Nat → FetchResult) (timeout : Int) (upid : String),
      monitor_pve_task authenticated fetch timeout upid
        = monitor_pve_task_collapsed authenticated fetch timeout upid := by
  intro a fetch timeout upid
  cases a with
  | false => rfl
  | true =>
    rw [monitor_pve_task_true, monitor_pve_task_collapsed_true]
    exact monitorLoop_eq_collapsed fetch timeout upid
      ((timeout - ((0 : Nat) : Int)).toNat) 0 0 none le_rfl

/-- Claim C10: with an authenticated client and strictly positive timeout
at least one fetch happens and the unbound-variable branch is unreachable,
while a non-positive timeout skips the loop body and hits the unbound
local in the final return. -/
theorem monitor_positive_timeout_fetches_once :
    (∀ (fetch : Nat → FetchResult) (timeout : Int) (upid : String), 0 < timeout →
       1 ≤ (monitor_pve_task true fetch timeout upid).2 ∧
       (monitor_pve_task true fetch timeout upid).1 ≠ PollResult.nameError)
    ∧ (∀ (fetch : Nat → FetchResult) (timeout : Int) (upid : String), timeout ≤ 0 →
       monitor_pve_task true fetch timeout upid = (PollResult.nameError, 0)) := by
  constructor
  · intro fetch timeout upid ht
    refine ⟨?_, ?_⟩
    · rw [monitor_pve_task_true, monitorLoop.eq_def]
      split
      · split
        · simp
        · split
          · split <;> simp
          · split
            · simp
            · exact le_trans (by omega)
                (monitorLoop_count_le fetch timeout upid
                  ((timeout - ((0 + 2 : Nat) : Int)).toNat) (0 + 2) (0 + 1) _ le_rfl)
      · exfalso; omega
    · rw [monitor_pve_task_true, monitorLoop.eq_def]
      split
      · split
        · simp
        · split
          · split <;> simp
          · split
            · simp
            · exact monitorLoop_some_ne fetch timeout upid
                ((timeout - ((0 + 2 : Nat) : Int)).toNat) (0 + 2) (0 + 1) _ le_rfl
      · exfalso; omega
  · intro fetch timeout upid ht
    rw [monitor_pve_task_true, monitorLoop.eq_def]
    split
    · exfalso; omega
    · simp [Option.elim]

/-- Witness for claim C10 at concrete positive and non-positive timeouts. -/
theorem monitor_positive_timeout_fetches_once_witness :
    (1 ≤ (monitor_pve_task true (fun _ => FetchResult.ok "running" "N/A") 7 "T4").2 ∧
      (monitor_pve_task true (fun _ => FetchResult.ok "running" "N/A") 7 "T4").1
        ≠ PollResult.nameError)
    ∧ monitor_pve_task true (fun _ => FetchResult.ok "running" "N/A") (-3) "T4"
        = (PollResult.nameError, 0) :=
  ⟨monitor_positive_timeout_fetches_once.1 (fun _ => FetchResult.ok "running" "N/A")
      7 "T4" (by norm_num),
   monitor_positive_timeout_fetches_once.2 (fun _ => FetchResult.ok "running" "N/A")
      (-3) "T4" (by norm_num)⟩

/-! ### Event taxonomy and stream frames (src/monitoring/agent/agent.py) -/

/-- The closed tag set of events. -/
inductive EvKind where
  | start | thought | tool_call | tool_result | answer | error | done
deriving Repr, DecidableEq

/-- An event dict as published on the Event Bus via broadcast_event.  The
wall-clock timestamp field the python code adds is abstracted away; the
remaining fields are kept. -/
inductive BEvent where
  | start (thread_id : Int) (content : String)
  | thought (thread_id : Int) (content : String)
  | toolResult (thread_id : Int) (name content tool_call_id : String)
  | toolCall (thread_id : Int) (name : String) (args : Json)
  | answer (thread_id : Int) (content : String)
  | error (thread_id : Int) (content : String)
deriving Repr

def bkind : BEvent → EvKind
  | .start .. => .start
  | .thought .. => .thought
  | .toolResult .. => .tool_result
  | .toolCall .. => .tool_call
  | .answer .. => .answer
  | .error .. => .error

/-- One SSE frame: an optional event label line and a data payload. -/
structure Frame where
  label : Option String
  data : String
deriving Repr, DecidableEq

/-- The wire text of a frame, exactly as the python yield strings are
formatted: optional label line, data line, blank-line terminator. -/
def renderFrame (f : Frame) : String :=
  (match f.label with
   | some l => "event: " ++ l ++ "\n"
   | none => "") ++ "data: " ++ f.data ++ "\n\n"

/-! ### Upstream step updates consumed by sse_generator -/

/-- A message inside the "messages" entry of an update: an AIMessage with
its content, or a ToolMessage. -/
inductive Message where
  | ai (content : String)
  | tool (name content tool_call_id : String)
deriving Repr

structure ToolCallReq where
  name : String
  args : Json
deriving Repr

/-- One update value of a step dict; each optional field models the
corresponding key being present. -/
structure Update where
  messages : Option (List Message) := none
  tool_calls : Option (List ToolCallReq) := none
  structured_response : Option String := none
deriving Repr

/-! ### JSON payloads built by the generator -/

def thoughtJson (content : String) : Json :=
  .obj [("type", .str "thought"), ("content", .str content)]

def toolResultJson (name content tool_call_id : String) : Json :=
  .obj [("type", .str "tool_result"), ("name", .str name),
        ("content", .str content), ("tool_call_id", .str tool_call_id)]

def toolCallJson (name : String) (args : Json) : Json :=
  .obj [("type", .str "tool_call"), ("name", .str name), ("args", args)]

def answerJson (content : String) : Json :=
  .obj [("type", .str "answer"), ("content", .str content)]

def errorJson (content : String) : Json :=
  .obj [("type", .str "error"), ("content", .str content)]

/-! ### The translator as a trace of actions

A run of sse_generator is a sequence of actions: frames yielded to the
own stream of the caller (tagged with the event kind of the emitting code
path) and events published to the bus via broadcast_event. -/

inductive Act where
  | out (k : EvKind) (f : Frame)
  | pub (e : BEvent)
deriving Repr

/-- Processing of one message of an update, in source order: a non-empty
AIMessage content that does not start with the structured-response marker
yields a thought frame then broadcasts it; a ToolMessage yields a
tool_result frame then broadcasts it. -/
def emitMessage (tid : Int) : Message → List Act
  | .ai content =>
      if content = "" then []
      else if content.startsWith "Returning structured response" then []
      else [.out .thought ⟨none, renderJson (thoughtJson content)⟩,
            .pub (.thought tid content)]
  | .tool name content tool_call_id =>
      [.out .tool_result ⟨none, renderJson (toolResultJson name content tool_call_id)⟩,
       .pub (.toolResult tid name content tool_call_id)]

def emitToolCall (tid : Int) (c : ToolCallReq) : List Act :=
  [.out .tool_call ⟨none, renderJson (toolCallJson c.name c.args)⟩,
   .pub (.toolCall tid c.name c.args)]

/-- Processing of one update: the messages entry, then the tool_calls
entry, then the structured_response entry, as in the source. -/
def emitUpdate (tid : Int) (u : Update) : List Act :=
  (match u.messages with
   | some ms => (ms.map (emitMessage tid)).flatten
   | none => [])
  ++ (match u.tool_calls with
      | some cs => (cs.map (emitToolCall tid)).flatten
      | none => [])
  ++ (match u.structured_response with
      | some ans => [.out .answer ⟨some "result", renderJson (answerJson ans)⟩,
                     .pub (.answer tid ans)]
      | none => [])

/-- sse_generator: broadcasts the start event, yields the start frame,
processes every update of every step pulled from the upstream execution,
turns an upstream failure raised while pulling (detail `exn`) into an
error frame and error broadcast, and finally yields the done frame. -/
def sse_generator (msg : String) (tid : Int)
    (steps : List (List Update)) (exn : Option String) : List Act :=
  [.pub (.start tid ("New Request: " ++ msg)),
   .out .start ⟨some "start", "开始处理..."⟩]
  ++ (steps.map (fun st => (st.map (emitUpdate tid)).flatten)).flatten
  ++ (match exn with
      | some e => [.out .error ⟨some "error", renderJson (errorJson e)⟩,
                   .pub (.error tid e)]
      | none => [])
  ++ [.out .done ⟨some "done", "[DONE]"⟩]

/-- Frames yielded to the own stream of the caller, with their kinds. -/
def outEvents (tr : List Act) : List (EvKind × Frame) :=
  tr.filterMap (fun a => match a with
    | .out k f => some (k, f)
    | .pub _ => none)

/-- Kinds of the frames yielded to the caller, in order. -/
def outKinds (tr : List Act) : List EvKind :=
  tr.filterMap (fun a => match a with
    | .out k _ => some k
    | .pub _ => none)

/-- Events published to the Event Bus, in order. -/
def pubEvents (tr : List Act) : List BEvent :=
  tr.filterMap (fun a => match a with
    | .out _ _ => none
    | .pub e => some e)

/-- Kinds of the published events, in order. -/
def pubKinds (tr : List Act) : List EvKind :=
  (pubEvents tr).map bkind

/-! ### The Event Bus: MONITOR_QUEUES, broadcast_event, monitor_generator -/

/-- One monitor queue: its identity and its buffered events. -/
structure Sub where
  id : Nat
  buf : List BEvent
deriving Repr

/-- broadcast_event: append the event to the buffer of every currently
registered queue; a no-op on an empty registry. -/
def broadcast_event (e : BEvent) (qs : List Sub) : List Sub :=
  qs.map (fun s => ⟨s.id, s.buf ++ [e]⟩)

/-- Publishing a sequence of events in order. -/
def publishAll (evs : List BEvent) (qs : List Sub) : List Sub :=
  evs.foldl (fun st e => broadcast_event e st) qs

/-- The monitor endpoint registers a fresh empty queue at the end of
MONITOR_QUEUES. -/
def subscribeQueue (i : Nat) (qs : List Sub) : List Sub := qs ++ [⟨i, []⟩]

/-- MONITOR_QUEUES.remove(q), as performed by monitor_generator on
cancellation: removes the first queue with the given identity, and raises
ValueError when no queue matches. -/
def removeQueue (i : Nat) : List Sub → Except String (List Sub)
  | [] => .error "ValueError: list.remove(x): x not in list"
  | s :: rest =>
      if s.id = i then .ok rest
      else (removeQueue i rest).map (fun r => s :: r)

/-- The event dict as serialized on the monitor channel (the abstracted
timestamp field aside). -/
def beventJson : BEvent → Json
  | .start tid c => .obj [("thread_id", .num tid), ("type", .str "start"),
                          ("content", .str c)]
  | .thought tid c => .obj [("thread_id", .num tid), ("type", .str "thought"),
                            ("content", .str c)]
  | .toolResult tid n c i =>
      .obj [("thread_id", .num tid), ("type", .str "tool_result"),
            ("name", .str n), ("content", .str c), ("tool_call_id", .str i)]
  | .toolCall tid n a =>
      .obj [("thread_id", .num tid), ("type", .str "tool_call"),
            ("name", .str n), ("args", a)]
  | .answer tid c => .obj [("thread_id", .num tid), ("type", .str "answer"),
                           ("content", .str c)]
  | .error tid c => .obj [("thread_id", .num tid), ("type", .str "error"),
                          ("content", .str c)]

/-- The frame monitor_generator yields for one buffered event: an
unlabeled data-only frame carrying the serialized dict. -/
def monitorFrame (e : BEvent) : Frame := ⟨none, renderJson (beventJson e)⟩

/-- The wire tag of each event kind. -/
def kindTag : EvKind → String
  | .start => "start"
  | .thought => "thought"
  | .tool_call => "tool_call"
  | .tool_result => "tool_result"
  | .answer => "answer"
  | .error => "error"
  | .done => "done"

/-! ### Trace projection lemmas -/

lemma outKinds_append (a b : List Act) : outKinds (a ++ b) = outKinds a ++ outKinds b := by
  simp [outKinds]

lemma pubEvents_append (a b : List Act) : pubEvents (a ++ b) = pubEvents a ++ pubEvents b := by
  simp [pubEvents]

lemma pubKinds_append (a b : List Act) : pubKinds (a ++ b) = pubKinds a ++ pubKinds b := by
  simp [pubKinds, pubEvents_append]

lemma outEvents_append (a b : List Act) : outEvents (a ++ b) = outEvents a ++ outEvents b := by
  simp [outEvents]

/-- Every emission site of the message handler pairs one yielded frame with
one published event of the same kind. -/
lemma emitMessage_kinds (tid : Int) (m : Message) :
    outKinds (emitMessage tid m) = pubKinds (emitMessage tid m) := by
  cases m with
  | ai c =>
    by_cases h1 : c = ""
    · simp [emitMessage, h1, outKinds, pubKinds, pubEvents]
    · by_cases h2 : c.startsWith "Returning structured response"
      · simp [emitMessage, h1, h2, outKinds, pubKinds, pubEvents]
      · simp [emitMessage, h1, h2, outKinds, pubKinds, pubEvents, bkind]
  | tool n c i => simp [emitMessage, outKinds, pubKinds, pubEvents, bkind]

lemma emitToolCall_kinds (tid : Int) (c : ToolCallReq) :
    outKinds (emitToolCall tid c) = pubKinds (emitToolCall tid c) := by
  simp [emitToolCall, outKinds, pubKinds, pubEvents, bkind]

lemma kinds_flatten {α : Type} (f : α → List Act) (l : List α)
    (h : ∀ a ∈ l, outKinds (f a) = pubKinds (f a)) :
    outKinds ((l.map f).flatten) = pubKinds ((l.map f).flatten) := by
  induction l with
  | nil => simp [outKinds, pubKinds, pubEvents]
  | cons a as ih =>
    simp only [List.map_cons, List.flatten_cons, outKinds_append, pubKinds_append]
    rw [h a (by simp), ih (fun x hx => h x (by simp [hx]))]

lemma kinds_balanced_append (a b : List Act)
    (ha : outKinds a = pubKinds a) (hb : outKinds b = pubKinds b) :
    outKinds (a ++ b) = pubKinds (a ++ b) := by
  rw [outKinds_append, pubKinds_append, ha, hb]

lemma emitUpdate_kinds (tid : Int) (u : Update) :
    outKinds (emitUpdate tid u) = pubKinds (emitUpdate tid u) := by
  obtain ⟨ms, tc, sr⟩ := u
  have p1 : outKinds (match ms with
      | some msl => ((msl.map (emitMessage tid)).flatten)
      | none => []) = pubKinds (match ms with
      | some msl => ((msl.map (emitMessage tid)).flatten)
      | none => []) := by
    cases ms with
    | none => rfl
    | some msl => exact kinds_flatten _ msl (fun a _ => emitMessage_kinds tid a)
  have p2 : outKinds (match tc with
      | some cl => ((cl.map (emitToolCall tid)).flatten)
      | none => []) = pubKinds (match tc with
      | some cl => ((cl.map (emitToolCall tid)).flatten)
      | none => []) := by
    cases tc with
    | none => rfl
    | some cl => exact kinds_flatten _ cl (fun a _ => emitToolCall_kinds tid a)
  have p3 : outKinds (match sr with
      | some ans => [Act.out EvKind.answer ⟨some "result", renderJson (answerJson ans)⟩,
                     Act.pub (BEvent.answer tid ans)]
      | none => []) = pubKinds (match sr with
      | some ans => [Act.out EvKind.answer ⟨some "result", renderJson (answerJson ans)⟩,
                     Act.pub (BEvent.answer tid ans)]
      | none => []) := by
    cases sr <;> rfl
  exact kinds_balanced_append _ _ (kinds_balanced_append _ _ p1 p2) p3

/-! ### Translator claim theorems: the two streams -/

/-- Claim C1 counterexample: already on the empty execution, the kinds
yielded to the caller and the kinds published to the bus differ — the done
event is yielded but never published. -/
theorem sse_generator_done_not_published :
    ¬ (outKinds (sse_generator "m" 1 [] none) = pubKinds (sse_generator "m" 1 [] none)) := by
  decide

/-- Claim C1 as amended: on every invocation, the kinds yielded to the
caller coincide, in order, with the kinds published to the Event Bus with
exactly one exception: the terminating done event is yielded to the caller
but never published. -/
theorem sse_generator_yield_pub_kinds :
    ∀ (msg : String) (tid : Int) (steps : List (List Update)) (exn : Option String),
      outKinds (sse_generator msg tid steps exn)
        = pubKinds (sse_generator msg tid steps exn) ++ [EvKind.done] := by
  intro msg tid steps exn
  simp only [sse_generator, outKinds_append, pubKinds_append]
  rw [kinds_flatten (fun st => (st.map (emitUpdate tid)).flatten) steps
    (fun st _ => kinds_flatten _ st (fun u _ => emitUpdate_kinds tid u))]
  cases exn <;> simp [outKinds, pubKinds, pubEvents, bkind]

/-- Claim C4: every invocation ends with the done frame as its very last
action, and an upstream failure makes the yielded stream end with the
error frame followed by the done frame. -/
theorem sse_generator_done_last :
    ∀ (msg : String) (tid : Int) (steps : List (List Update)) (exn : Option String),
      (sse_generator msg tid steps exn).getLast?
          = some (Act.out EvKind.done ⟨some "done", "[DONE]"⟩)
      ∧ (∀ e, exn = some e →
          List.IsSuffix
            [(EvKind.error, ⟨some "error", renderJson (errorJson e)⟩),
             (EvKind.done, ⟨some "done", "[DONE]"⟩)]
            (outEvents (sse_generator msg tid steps exn))) := by
  intro msg tid steps exn
  constructor
  · have hsplit : sse_generator msg tid steps exn
        = ([Act.pub (BEvent.start tid ("New Request: " ++ msg)),
            Act.out EvKind.start ⟨some "start", "开始处理..."⟩]
           ++ (steps.map (fun st => (st.map (emitUpdate tid)).flatten)).flatten
           ++ (match exn with
               | some e => [Act.out EvKind.error ⟨some "error", renderJson (errorJson e)⟩,
                            Act.pub (BEvent.error tid e)]
               | none => []))
          ++ [Act.out EvKind.done ⟨some "done", "[DONE]"⟩] := by
      simp [sse_generator]
    rw [hsplit, List.getLast?_concat]
  · intro e he
    subst he
    refine ⟨(EvKind.start, ⟨some "start", "开始处理..."⟩) ::
        outEvents ((steps.map (fun st => (st.map (emitUpdate tid)).flatten)).flatten), ?_⟩
    simp [sse_generator, outEvents_append, outEvents]

/-- Witness for claim C4 on a concrete failing upstream execution. -/
theorem sse_generator_done_last_witness :
    List.IsSuffix
      [(EvKind.error, ⟨some "error", renderJson (errorJson "boom")⟩),
       (EvKind.done, ⟨some "done", "[DONE]"⟩)]
      (outEvents (sse_generator "m" 1 [] (some "boom"))) :=
  (sse_generator_done_last "m" 1 [] (some "boom")).2 "boom" rfl

/-! ### Event Bus claim theorems -/

lemma publishAll_cons (e : BEvent) (rest : List BEvent) (qs : List Sub) :
    publishAll (e :: rest) qs = publishAll rest (broadcast_event e qs) := rfl

/-- Publishing a sequence appends it to every registered buffer. -/
lemma publishAll_eq (evs : List BEvent) (qs : List Sub) :
    publishAll evs qs = qs.map (fun s => ⟨s.id, s.buf ++ evs⟩) := by
  induction evs generalizing qs with
  | nil =>
    simp [publishAll]
  | cons e rest ih =>
    rw [publishAll_cons, ih]
    simp [broadcast_event, List.map_map]

/-- Claim C5: with K subscribers registered throughout, publishing the
sequence of N events leaves every one of the K buffers equal to exactly
that sequence in publish order. -/
theorem broadcast_preserves_order :
    ∀ (evs : List BEvent) (qs : List Sub),
      (∀ s ∈ qs, s.buf = []) →
      (publishAll evs qs).map Sub.buf = List.replicate qs.length evs := by
  intro evs qs h
  rw [publishAll_eq]
  induction qs with
  | nil => simp
  | cons a as ih =>
    simp only [List.map_cons, List.length_cons, List.replicate_succ]
    rw [h a (by simp)]
    simp only [List.nil_append]
    rw [ih (fun s hs => h s (by simp [hs]))]

/-- Witness for claim C5 on two subscribers and two events. -/
theorem broadcast_preserves_order_witness :
    (publishAll [BEvent.start 1 "a", BEvent.thought 1 "b"]
        [⟨0, []⟩, ⟨1, []⟩]).map Sub.buf
      = List.replicate 2 [BEvent.start 1 "a", BEvent.thought 1 "b"] :=
  broadcast_preserves_order [BEvent.start 1 "a", BEvent.thought 1 "b"]
    [⟨0, []⟩, ⟨1, []⟩] (by simp)

/-- Claim C6 counterexample: removing a never-registered handle is not a
no-op — it raises ValueError, exactly as python list.remove does. -/
theorem removeQueue_unknown_raises :
    removeQueue 0 [] = Except.error "ValueError: list.remove(x): x not in list" := rfl

lemma removeQueue_ok_not_mem :
    ∀ (i : Nat) (qs qs' : List Sub), (qs.map Sub.id).Nodup →
      removeQueue i qs = Except.ok qs' → i ∉ qs'.map Sub.id := by
  intro i qs
  induction qs with
  | nil => intro qs' _ h; simp [removeQueue] at h
  | cons a as ih =>
    intro qs' hnd h
    by_cases ha : a.id = i
    · simp [removeQueue, ha] at h
      subst h
      simp only [List.map_cons, List.nodup_cons] at hnd
      rw [← ha]
      exact hnd.1
    · simp [removeQueue, ha] at h
      cases hr : removeQueue i as with
      | error msg => rw [hr] at h; simp [Except.map] at h
      | ok r =>
        rw [hr] at h
        simp [Except.map] at h
        subst h
        simp only [List.map_cons, List.nodup_cons] at hnd ⊢
        simp only [List.mem_cons]
        push_neg
        exact ⟨fun hc => ha hc.symm, ih r hnd.2 hr⟩

/-- Claim C6 as amended: publishing with zero subscribers is a no-op; after
a successful removal a publish no longer delivers to the removed handle
(given the distinct queue identities of the program); but removing an
unknown handle raises ValueError instead of being a no-op. -/
theorem unsubscribe_amended_behavior :
    (∀ e : BEvent, broadcast_event e [] = [])
    ∧ (∀ (i : Nat) (qs qs' : List Sub) (e : BEvent),
        (qs.map Sub.id).Nodup → removeQueue i qs = Except.ok qs' →
        ∀ s ∈ broadcast_event e qs', s.id ≠ i)
    ∧ (∀ (i : Nat) (qs : List Sub), i ∉ qs.map Sub.id →
        removeQueue i qs = Except.error "ValueError: list.remove(x): x not in list") := by
  refine ⟨?_, ?_, ?_⟩
  · intro e; rfl
  · intro i qs qs' e hnd hok s hs
    have hni := removeQueue_ok_not_mem i qs qs' hnd hok
    simp [broadcast_event] at hs
    obtain ⟨t, ht, rfl⟩ := hs
    show t.id ≠ i
    intro hc
    exact hni (hc ▸ List.mem_map_of_mem Sub.id ht)
  · intro i qs
    induction qs with
    | nil => intro _; rfl
    | cons a as ih =>
      intro hni
      simp only [List.map_cons, List.mem_cons] at hni
      push_neg at hni
      have ha : ¬ (a.id = i) := fun hc => hni.1 hc.symm
      simp [removeQueue, ha, ih hni.2, Except.map]

/-- Witness for claim C6 on concrete registries. -/
theorem unsubscribe_amended_behavior_witness :
    removeQueue 2 [⟨0, []⟩] = Except.error "ValueError: list.remove(x): x not in list"
    ∧ (⟨0, [BEvent.start 1 "x"]⟩ : Sub).id ≠ 1 :=
  ⟨unsubscribe_amended_behavior.2.2 2 [⟨0, []⟩] (by simp),
   unsubscribe_amended_behavior.2.1 1 [⟨0, []⟩, ⟨1, []⟩] [⟨0, []⟩] (BEvent.start 1 "x")
     (by simp) rfl ⟨0, [BEvent.start 1 "x"]⟩ (by simp [broadcast_event])⟩

/-! ### Frame well-formedness: heads of rendered JSON are ASCII -/

lemma digitChar_ascii (k : Nat) : (digitChar k).val < 128 := by
  unfold digitChar
  split <;> decide

lemma natDigitsAux_zero : natDigitsAux 0 = [] := by
  rw [natDigitsAux.eq_def]
  simp

lemma natDigitsAux_cons : ∀ n : Nat, n ≠ 0 → ∃ k rest, natDigitsAux n = digitChar k :: rest := by
  intro n
  induction n using Nat.strong_induction_on with
  | _ n ih =>
    intro hn
    by_cases h10 : n / 10 = 0
    · refine ⟨n % 10, [], ?_⟩
      rw [natDigitsAux.eq_def]
      simp [hn, h10, natDigitsAux_zero]
    · obtain ⟨k, rest, heq⟩ := ih (n / 10) (by omega) h10
      refine ⟨k, rest ++ [digitChar (n % 10)], ?_⟩
      rw [natDigitsAux.eq_def]
      simp [hn, heq]

lemma renderNat_head_ascii (n : Nat) :
    ∀ c, (renderNat n).data.head? = some c → c.val < 128 := by
  intro c hc
  unfold renderNat at hc
  by_cases h : n = 0
  · simp [h] at hc
    subst hc
    decide
  · simp [h] at hc
    obtain ⟨k, rest, heq⟩ := natDigitsAux_cons n h
    rw [heq] at hc
    simp at hc
    subst hc
    exact digitChar_ascii k

lemma renderInt_head_ascii (i : Int) :
    ∀ c, (renderInt i).data.head? = some c → c.val < 128 := by
  intro c hc
  unfold renderInt at hc
  by_cases h : i < 0
  · simp only [h, if_true] at hc
    rw [String.data_append] at hc
    simp at hc
    subst hc
    decide
  · simp only [h, if_false] at hc
    exact renderNat_head_ascii _ c hc

/-- Any rendered JSON value starts with an ASCII character. -/
lemma renderJson_head_ascii :
    ∀ (j : Json) (c : Char), (renderJson j).data.head? = some c → c.val < 128 := by
  intro j c hc
  cases j with
  | str s =>
    rw [renderJson, String.data_append] at hc
    simp at hc
    subst hc
    decide
  | num n =>
    rw [renderJson] at hc
    exact renderInt_head_ascii n c hc
  | boolean b =>
    rw [renderJson] at hc
    cases b <;> simp at hc <;> subst hc <;> decide
  | null =>
    rw [renderJson] at hc
    simp at hc
    subst hc
    decide
  | obj fields =>
    rw [renderJson, String.data_append] at hc
    simp at hc
    subst hc
    decide
  | arr elems =>
    rw [renderJson, String.data_append] at hc
    simp at hc
    subst hc
    decide

/-- Claim C9 counterexample: the labelled start frame of the per-request
stream carries the literal text payload, which is not valid JSON. -/
theorem start_frame_payload_not_json :
    (EvKind.start, (⟨some "start", "开始处理..."⟩ : Frame))
        ∈ outEvents (sse_generator "m" 1 [] none)
    ∧ ¬ validJson "开始处理..." := by
  constructor
  · decide
  · rintro ⟨j, hj⟩
    have hh : (renderJson j).data.head? = some '开' := by
      rw [hj]
      decide
    have := renderJson_head_ascii j '开' hh
    exact absurd this (by decide)

/-- Well-formedness of one yielded frame per event kind, as amended: the
labelled start and done frames carry the fixed plain-text payloads, result
and error frames carry JSON payloads, and thought, tool_call and
tool_result frames are unlabeled with JSON payloads. -/
def frameOk : EvKind → Frame → Prop
  | .start, f => f = ⟨some "start", "开始处理..."⟩
  | .done, f => f = ⟨some "done", "[DONE]"⟩
  | .thought, f => f.label = none ∧ ∃ c, f.data = renderJson (thoughtJson c)
  | .tool_call, f => f.label = none ∧ ∃ n a, f.data = renderJson (toolCallJson n a)
  | .tool_result, f => f.label = none ∧ ∃ n c i, f.data = renderJson (toolResultJson n c i)
  | .answer, f => f.label = some "result" ∧ ∃ c, f.data = renderJson (answerJson c)
  | .error, f => f.label = some "error" ∧ ∃ c, f.data = renderJson (errorJson c)

lemma forall_outEvents_append {P : EvKind → Frame → Prop} (a b : List Act)
    (ha : ∀ p ∈ outEvents a, P p.1 p.2) (hb : ∀ p ∈ outEvents b, P p.1 p.2) :
    ∀ p ∈ outEvents (a ++ b), P p.1 p.2 := by
  intro p hp
  rw [outEvents_append, List.mem_append] at hp
  cases hp with
  | inl h => exact ha p h
  | inr h => exact hb p h

lemma forall_outEvents_flatten {α : Type} {P : EvKind → Frame → Prop}
    (f : α → List Act) (l : List α)
    (h : ∀ x ∈ l, ∀ p ∈ outEvents (f x), P p.1 p.2) :
    ∀ p ∈ outEvents ((l.map f).flatten), P p.1 p.2 := by
  induction l with
  | nil => intro p hp; simp [outEvents] at hp
  | cons a as ih =>
    simp only [List.map_cons, List.flatten_cons]
    exact forall_outEvents_append _ _ (h a (by simp))
      (ih (fun x hx => h x (by simp [hx])))

lemma emitMessage_frames (tid : Int) (m : Message) :
    ∀ p ∈ outEvents (emitMessage tid m), frameOk p.1 p.2 := by
  intro p hp
  cases m with
  | ai c =>
    by_cases h1 : c = ""
    · simp [emitMessage, h1, outEvents] at hp
    · by_cases h2 : c.startsWith "Returning structured response"
      · simp [emitMessage, h1, h2, outEvents] at hp
      · simp [emitMessage, h1, h2, outEvents] at hp
        subst hp
        exact ⟨rfl, c, rfl⟩
  | tool n c i =>
    simp [emitMessage, outEvents] at hp
    subst hp
    exact ⟨rfl, n, c, i, rfl⟩

lemma emitToolCall_frames (tid : Int) (c : ToolCallReq) :
    ∀ p ∈ outEvents (emitToolCall tid c), frameOk p.1 p.2 := by
  intro p hp
  simp [emitToolCall, outEvents] at hp
  subst hp
  exact ⟨rfl, c.name, c.args, rfl⟩

lemma emitUpdate_frames (tid : Int) (u : Update) :
    ∀ p ∈ outEvents (emitUpdate tid u), frameOk p.1 p.2 := by
  obtain ⟨ms, tc, sr⟩ := u
  refine forall_outEvents_append _ _ (forall_outEvents_append _ _ ?_ ?_) ?_
  · cases ms with
    | none => intro p hp; simp [outEvents] at hp
    | some msl => exact forall_outEvents_flatten _ msl (fun x _ => emitMessage_frames tid x)
  · cases tc with
    | none => intro p hp; simp [outEvents] at hp
    | some cl => exact forall_outEvents_flatten _ cl (fun x _ => emitToolCall_frames tid x)
  · cases sr with
    | none => intro p hp; simp [outEvents] at hp
    | some ans =>
      intro p hp
      simp [outEvents] at hp
      subst hp
      exact ⟨rfl, ans, rfl⟩

/-- Claim C9 as amended: every frame yielded on the per-request stream is
well-formed for its kind — unlabeled JSON payloads with matching type
discriminators for thought, tool_call and tool_result, labelled JSON
payloads for result and error, and the two fixed plain-text frames for
start and done; every broadcast-channel frame is unlabeled and carries the
serialized event dict whose type discriminator matches the event kind. -/
theorem stream_frames_wellformed :
    (∀ (msg : String) (tid : Int) (steps : List (List Update)) (exn : Option String),
       ∀ p ∈ outEvents (sse_generator msg tid steps exn), frameOk p.1 p.2)
    ∧ (∀ e : BEvent, (monitorFrame e).label = none
        ∧ (monitorFrame e).data = renderJson (beventJson e)
        ∧ jsonType (beventJson e) = some (kindTag (bkind e)))
    ∧ (∀ c, jsonType (thoughtJson c) = some "thought")
    ∧ (∀ n c i, jsonType (toolResultJson n c i) = some "tool_result")
    ∧ (∀ n a, jsonType (toolCallJson n a) = some "tool_call")
    ∧ (∀ c, jsonType (answerJson c) = some "answer")
    ∧ (∀ c, jsonType (errorJson c) = some "error") := by
  refine ⟨?_, ?_, fun c => rfl, fun n c i => rfl, fun n a => rfl, fun c => rfl, fun c => rfl⟩
  · intro msg tid steps exn
    unfold sse_generator
    refine forall_outEvents_append _ _
      (forall_outEvents_append _ _
        (forall_outEvents_append _ _ ?_
          (forall_outEvents_flatten _ steps
            (fun st _ => forall_outEvents_flatten _ st (fun u _ => emitUpdate_frames tid u))))
        ?_)
      ?_
    · intro p hp
      simp [outEvents] at hp
      subst hp
      rfl
    · cases exn with
      | none => intro p hp; simp [outEvents] at hp
      | some e =>
        intro p hp
        simp [outEvents] at hp
        subst hp
        exact ⟨rfl, e, rfl⟩
    · intro p hp
      simp [outEvents] at hp
      subst hp
      rfl
  · intro e
    exact ⟨rfl, rfl, by cases e <;> rfl⟩

/-- Witness for claim C9: the start frame of a concrete run is
well-formed. -/
theorem stream_frames_wellformed_witness :
    frameOk EvKind.start ⟨some "start", "开始处理..."⟩ :=
  stream_frames_wellformed.1 "m" 1 [] none
    (EvKind.start, ⟨some "start", "开始处理..."⟩) (by decide)

end PveK3s
